import Mathlib

/-!
Verification of the Pigpiod_Emulator core (`virtual_hardware.py` and
`client_instances.py`) against its natural-language specification.

Bytes are modelled as `Nat` values (each byte in `[0, 256)`); byte strings as
`List Nat`.  Python list slice assignment `lst[a:b] = d` (with `0 ≤ a, b ≤ len`)
is modelled as `lst.take a ++ d ++ lst.drop (max a b)`: when `b < a` the slice
is empty and the assignment *inserts* `d` at position `a` — this insertion
semantics is essential to the boundary behaviour of the buffer writes below.
Python slicing `lst[a:b]` is `(lst.take b).drop a`.

Each method of the Python `SerialPort` class is a Lean function threading the
object state explicitly: mutating methods return the updated `SerialPort`;
read-only methods return their value paired with the (unchanged) state, so
that absence of mutation is a stated theorem rather than a convention.
-/

/-- Validity of a byte sequence under Python's strict `utf-8` codec
(RFC 3629: no bytes `0x80`–`0xC1` as a lead, no overlong forms, no surrogate
code points `U+D800`–`U+DFFF`, nothing above `U+10FFFF`).  Used to model the
points where the source calls `bytes.decode('utf-8')`, which raises
`UnicodeDecodeError` exactly when this predicate is false. -/
def validUtf8 : List Nat → Bool
  | [] => true
  | b :: rest =>
    if b < 0x80 then validUtf8 rest
    else if b < 0xC2 then false
    else if b < 0xE0 then
      match rest with
      | c1 :: r => if 0x80 ≤ c1 ∧ c1 < 0xC0 then validUtf8 r else false
      | _ => false
    else if b = 0xE0 then
      match rest with
      | c1 :: c2 :: r =>
        if 0xA0 ≤ c1 ∧ c1 < 0xC0 ∧ 0x80 ≤ c2 ∧ c2 < 0xC0 then validUtf8 r else false
      | _ => false
    else if b < 0xED then
      match rest with
      | c1 :: c2 :: r =>
        if 0x80 ≤ c1 ∧ c1 < 0xC0 ∧ 0x80 ≤ c2 ∧ c2 < 0xC0 then validUtf8 r else false
      | _ => false
    else if b = 0xED then
      match rest with
      | c1 :: c2 :: r =>
        if 0x80 ≤ c1 ∧ c1 < 0xA0 ∧ 0x80 ≤ c2 ∧ c2 < 0xC0 then validUtf8 r else false
      | _ => false
    else if b < 0xF0 then
      match rest with
      | c1 :: c2 :: r =>
        if 0x80 ≤ c1 ∧ c1 < 0xC0 ∧ 0x80 ≤ c2 ∧ c2 < 0xC0 then validUtf8 r else false
      | _ => false
    else if b = 0xF0 then
      match rest with
      | c1 :: c2 :: c3 :: r =>
        if 0x90 ≤ c1 ∧ c1 < 0xC0 ∧ 0x80 ≤ c2 ∧ c2 < 0xC0 ∧ 0x80 ≤ c3 ∧ c3 < 0xC0 then
          validUtf8 r
        else false
      | _ => false
    else if b < 0xF4 then
      match rest with
      | c1 :: c2 :: c3 :: r =>
        if 0x80 ≤ c1 ∧ c1 < 0xC0 ∧ 0x80 ≤ c2 ∧ c2 < 0xC0 ∧ 0x80 ≤ c3 ∧ c3 < 0xC0 then
          validUtf8 r
        else false
      | _ => false
    else if b = 0xF4 then
      match rest with
      | c1 :: c2 :: c3 :: r =>
        if 0x80 ≤ c1 ∧ c1 < 0x90 ∧ 0x80 ≤ c2 ∧ c2 < 0xC0 ∧ 0x80 ≤ c3 ∧ c3 < 0xC0 then
          validUtf8 r
        else false
      | _ => false
    else false

/-- State of `virtual_hardware.SerialPort`: a named virtual serial port with two
fixed-capacity circular buffers (`input_buffer`, `output_buffer`) and one write
cursor per buffer.  The per-port `threading.Lock` serialises the methods but
carries no data, so it has no counterpart here; each method below models one
complete lock-protected critical section.  Port names are byte strings
(`List Nat` of ASCII codes). -/
structure SerialPort where
  port : List Nat
  baudrate : Nat
  input_buffer : List Nat
  output_buffer : List Nat
  input_buffer_size : Nat
  output_buffer_size : Nat
  input_buffer_w_index : Nat
  output_buffer_w_index : Nat
deriving DecidableEq

/-- `SerialPort.__init__(port, baudrate, input_buffer_size, output_buffer_size)`:
both write cursors start at 0 and both backing lists hold `size` zero bytes. -/
def SerialPort.init (port : List Nat) (baudrate : Nat)
    (input_buffer_size output_buffer_size : Nat) : SerialPort :=
  { port := port
    baudrate := baudrate
    input_buffer := List.replicate input_buffer_size 0
    output_buffer := List.replicate output_buffer_size 0
    input_buffer_size := input_buffer_size
    output_buffer_size := output_buffer_size
    input_buffer_w_index := 0
    output_buffer_w_index := 0 }

/-- `SerialPort.bind()`: returns the current write cursors of the input and
output buffers (no mutation). -/
def SerialPort.bind (p : SerialPort) : Nat × Nat :=
  (p.input_buffer_w_index, p.output_buffer_w_index)

/-- `SerialPort.put_output(data)`: writes `data` at the output write cursor.
`goal_index = (w + len(data)) % size`; if `w + len(data) > size` the write is
split as `buf[w:] = data[:size-w]` then `buf[0:goal] = data[size-w:]`;
otherwise it is the single slice assignment `buf[w:goal] = data` (which, when
`goal = 0 < w`, inserts `data` at position `w`). -/
def SerialPort.put_output (p : SerialPort) (data : List Nat) : SerialPort :=
  let C := p.output_buffer_size
  let w := p.output_buffer_w_index
  let goal := (w + data.length) % C
  if w + data.length > C then
    { p with
      output_buffer :=
        data.drop (C - w) ++ (p.output_buffer.take w ++ data.take (C - w)).drop goal
      output_buffer_w_index := goal }
  else
    { p with
      output_buffer := p.output_buffer.take w ++ data ++ p.output_buffer.drop (max w goal)
      output_buffer_w_index := goal }

/-- `SerialPort.get_output(size, read_index)`: `goal = (read_index + size) % C`;
if `read_index + size > C` the result is `buf[read_index:C] + buf[0:goal]`,
otherwise `buf[read_index:goal]`; returns `(to_send, goal)` and leaves the
port state untouched (second component). -/
def SerialPort.get_output (p : SerialPort) (size read_index : Nat) :
    (List Nat × Nat) × SerialPort :=
  let C := p.output_buffer_size
  let goal := (read_index + size) % C
  if read_index + size > C then
    (((p.output_buffer.take C).drop read_index ++ p.output_buffer.take goal, goal), p)
  else
    (((p.output_buffer.take goal).drop read_index, goal), p)

/-- `SerialPort.put_input(data)`: same algorithm as `put_output` on the input
buffer (the source first does `data = list(data)`, a representation change
with no effect in this model). -/
def SerialPort.put_input (p : SerialPort) (data : List Nat) : SerialPort :=
  let C := p.input_buffer_size
  let w := p.input_buffer_w_index
  let goal := (w + data.length) % C
  if w + data.length > C then
    { p with
      input_buffer :=
        data.drop (C - w) ++ (p.input_buffer.take w ++ data.take (C - w)).drop goal
      input_buffer_w_index := goal }
  else
    { p with
      input_buffer := p.input_buffer.take w ++ data ++ p.input_buffer.drop (max w goal)
      input_buffer_w_index := goal }

/-- `SerialPort.get_input(size, read_index)`: same algorithm as `get_output`
on the input buffer. -/
def SerialPort.get_input (p : SerialPort) (size read_index : Nat) :
    (List Nat × Nat) × SerialPort :=
  let C := p.input_buffer_size
  let goal := (read_index + size) % C
  if read_index + size > C then
    (((p.input_buffer.take C).drop read_index ++ p.input_buffer.take goal, goal), p)
  else
    (((p.input_buffer.take goal).drop read_index, goal), p)

/-- `SerialPort.input_dat_avail(read_index)`: `w - r` if `w > r`,
`C - r + w` if `w < r`, else `0`.  (Read cursors are always `< C`, so the
`Nat` subtraction `C - r` agrees with Python's integer arithmetic on the
states the theorems below quantify over.) -/
def SerialPort.input_dat_avail (p : SerialPort) (read_index : Nat) : Nat × SerialPort :=
  if p.input_buffer_w_index > read_index then
    (p.input_buffer_w_index - read_index, p)
  else if p.input_buffer_w_index < read_index then
    (p.input_buffer_size - read_index + p.input_buffer_w_index, p)
  else
    (0, p)

/-- `SerialPort.output_dat_avail(read_index)`: same formula on the output
buffer. -/
def SerialPort.output_dat_avail (p : SerialPort) (read_index : Nat) : Nat × SerialPort :=
  if p.output_buffer_w_index > read_index then
    (p.output_buffer_w_index - read_index, p)
  else if p.output_buffer_w_index < read_index then
    (p.output_buffer_size - read_index + p.output_buffer_w_index, p)
  else
    (0, p)

/-- `client_instances.VirtualHardware` holds the registry of virtual hardware
(here only `serialports`, the ordered list of `SerialPort` records). -/
structure VirtualHardware where
  serialports : List SerialPort
deriving DecidableEq

/-- A Python exception escaping a handler.  The session's `run` loop catches
only `socket.timeout`, so any of these aborts the control loop uncaught. -/
inductive PyError where
  | indexError
  | nameError
  | unicodeDecodeError
  | structError
deriving DecidableEq

/-- One unit sent on the main socket: either a packed four-word response frame
(the last word is signed, to accommodate the `-1` failure sentinel packed with
format `IIIi`) or raw payload bytes. -/
inductive Resp where
  | frame (a b c d : Int)
  | raw (bytes : List Nat)
deriving DecidableEq

/-- State of `client_instances.PigpioSerialInstance`: the binding of one client
handle to one virtual serial port.  The Python object holds a reference to the
shared `SerialPort`; here `portIdx` is its index in the registry's
`serialports` list.  `input_buffer_r_index` / `output_buffer_r_index` are the
binding's private read cursors. -/
structure PigpioSerialInstance where
  portIdx : Nat
  handle_id : Nat
  input_buffer_r_index : Nat
  output_buffer_r_index : Nat
deriving DecidableEq

/-- `PigpioSerialInstance.open(port, baudrate)`: rebinds both read cursors from
`serialport.bind()` and sends the success frame `{0,0,0,handle_id}`. -/
def PigpioSerialInstance.open_req (inst : PigpioSerialInstance) (p : SerialPort) :
    PigpioSerialInstance × List Resp :=
  ({ inst with
      input_buffer_r_index := p.bind.1
      output_buffer_r_index := p.bind.2 },
   [Resp.frame 0 0 0 (inst.handle_id : Int)])

/-- `PigpioSerialInstance.close()`: sends `{0,0,0,handle_id}` and logs.  It
does not touch the session's `serial_instances` list. -/
def PigpioSerialInstance.close (inst : PigpioSerialInstance) : List Resp :=
  [Resp.frame 0 0 0 (inst.handle_id : Int)]

/-- `PigpioSerialInstance.write_request(data)`: splits `data` as
`struct.unpack(f'I{len(data)-4}s', data)` (a `struct.error` if `data` is
shorter than 4 bytes), writes the remainder `to_add` to the port's output
buffer, logs `to_add.decode('utf-8')` — raising `UnicodeDecodeError` when
`to_add` is not valid UTF-8, *after* the buffer write but *before* any send —
and only then sends `{0,0,0,handle_id}`.  Returns (raised error if any,
resulting port state, frames sent). -/
def PigpioSerialInstance.write_request (inst : PigpioSerialInstance) (p : SerialPort)
    (data : List Nat) : Option PyError × SerialPort × List Resp :=
  if data.length < 4 then
    (some PyError.structError, p, [])
  else
    let to_add := data.drop 4
    let p' := p.put_output to_add
    if validUtf8 to_add then
      (none, p', [Resp.frame 0 0 0 (inst.handle_id : Int)])
    else
      (some PyError.unicodeDecodeError, p', [])

/-- `PigpioSerialInstance.read_request(size)`: clamps `size` to
`input_dat_avail(read cursor)`, calls `get_input`, advances the binding's
input read cursor to the returned index, logs `to_send.decode('utf-8')` —
raising `UnicodeDecodeError` when `to_send` is not valid UTF-8, before either
send — then sends the header `{0,0,0,len(to_send)}` followed by the raw bytes.
Returns (raised error if any, resulting binding state, units sent). -/
def PigpioSerialInstance.read_request (inst : PigpioSerialInstance) (p : SerialPort)
    (size : Nat) : Option PyError × PigpioSerialInstance × List Resp :=
  let size :=
    if size > (p.input_dat_avail inst.input_buffer_r_index).1 then
      (p.input_dat_avail inst.input_buffer_r_index).1
    else size
  let ts := (p.get_input size inst.input_buffer_r_index).1
  let inst' := { inst with input_buffer_r_index := ts.2 }
  if validUtf8 ts.1 then
    (none, inst', [Resp.frame 0 0 0 (ts.1.length : Int), Resp.raw ts.1])
  else
    (some PyError.unicodeDecodeError, inst', [])

/-- `PigpioSerialInstance.data_available_request()`: sends
`{0,0,0,input_dat_avail(read cursor)}`; no state change. -/
def PigpioSerialInstance.data_available_request (inst : PigpioSerialInstance)
    (p : SerialPort) : List Resp :=
  [Resp.frame 0 0 0 (((p.input_dat_avail inst.input_buffer_r_index).1 : Int))]

/-- One command frame as unpacked by `struct.unpack('II4sI', raw)` from the
16-byte header, plus the `p3` extension bytes read right after it (`ext` is
meaningful only when `p3 ≠ 0`; the header format guarantees `p2.length = 4`). -/
structure Frame where
  cmd : Nat
  p1 : Nat
  p2 : List Nat
  p3 : Nat
  ext : List Nat
deriving DecidableEq

/-- Session state of `PigpioClient`: the shared registry, the ordered list of
open bindings (`serial_instances`, indexed by handle), and `lastExt`, the
Python local `ext` left over from the most recent frame that carried an
extension (`none` on a fresh session, where referencing it raises
`NameError`). -/
structure Session where
  virtual_hardware : VirtualHardware
  serial_instances : List PigpioSerialInstance
  lastExt : Option (List Nat)
deriving DecidableEq

/-- `struct.unpack('I', b)` for a 4-byte little-endian field (all uses are on
the 4-byte `p2` header field). -/
def le32 : List Nat → Nat
  | [a, b, c, d] => a + 256 * (b + 256 * (c + 256 * d))
  | _ => 0

/-- Command numbers of the serial family (`_PI_CMD_SERO = 76`,
`_PI_CMD_SERC = 77`, `_PI_CMD_SERRB = 78`, `_PI_CMD_SERWB = 79`,
`_PI_CMD_SERR = 80`, `_PI_CMD_SERW = 81`, `_PI_CMD_SERDA = 82`). -/
def PI_CMD_SERO : Nat := 76

def PI_CMD_SERC : Nat := 77

def PI_CMD_SERR : Nat := 80

def PI_CMD_SERW : Nat := 81

def PI_CMD_SERDA : Nat := 82

instance {ε α : Type} [DecidableEq ε] [DecidableEq α] (a b : Except ε α) :
    Decidable (a = b) :=
  match a, b with
  | .error e, .error f =>
    if h : e = f then isTrue (by subst h; rfl) else isFalse (by simp [h])
  | .error _, .ok _ => isFalse (by simp)
  | .ok _, .error _ => isFalse (by simp)
  | .ok x, .ok y =>
    if h : x = y then isTrue (by subst h; rfl) else isFalse (by simp [h])

/-- One iteration of the `PigpioClient.run` control loop on a received frame:
reads the extension when `p3 ≠ 0` (appending it to `p2` — the source's
dual-typed `p2` quirk), then dispatches on `cmd` exactly as the Python
`if`/`elif` chain does, in the source's order (SERO, SERC, SERW, SERR, SERDA,
unknown).  `Except.error e` models a Python exception `e` escaping the loop
(only `socket.timeout` is caught there), which aborts the session;
`Except.ok (s, rs)` gives the successor session state and the units sent on
the main socket.  Notes kept faithful to the source:
- SERO decodes `ext` as ASCII (error on a byte ≥ 0x80), scans `serialports`
  for the first port with `port == ext and baudrate == p1`, appends a new
  binding whose handle is the pre-append list length, and replies through
  `open_req`; with no match it sends `{0,0,0,-1}`.
- SERC/SERW/SERDA index `serial_instances[p1]` first, so an out-of-range
  handle raises `IndexError`; SERR first re-unpacks `p2` with format `'I'`,
  which is a `struct.error` whenever `p3 ≠ 0` (the extension was appended).
- Nothing ever removes an entry from `serial_instances`.
- On an escaping exception the shared port state mutated before the raise is
  tracked at the `write_request` level; the session itself is dead. -/
def processFrame (s : Session) (f : Frame) : Except PyError (Session × List Resp) :=
  let extOpt := if f.p3 ≠ 0 then some f.ext else s.lastExt
  let p2eff := if f.p3 ≠ 0 then f.p2 ++ f.ext else f.p2
  let s := { s with lastExt := extOpt }
  if f.cmd = PI_CMD_SERO then
    match extOpt with
    | none => .error PyError.nameError
    | some e =>
      if e.all (fun b => b < 128) then
        match s.virtual_hardware.serialports.findIdx?
            (fun sp => sp.port == e && sp.baudrate == f.p1) with
        | some i =>
          match s.virtual_hardware.serialports[i]? with
          | some sp =>
            let inst0 : PigpioSerialInstance :=
              { portIdx := i
                handle_id := s.serial_instances.length
                input_buffer_r_index := 0
                output_buffer_r_index := 0 }
            let (inst, resps) := inst0.open_req sp
            .ok ({ s with serial_instances := s.serial_instances ++ [inst] }, resps)
          | none => .error PyError.indexError
        | none => .ok (s, [Resp.frame 0 0 0 (-1)])
      else .error PyError.unicodeDecodeError
  else if f.cmd = PI_CMD_SERC then
    match s.serial_instances[f.p1]? with
    | some inst => .ok (s, inst.close)
    | none => .error PyError.indexError
  else if f.cmd = PI_CMD_SERW then
    match s.serial_instances[f.p1]? with
    | some inst =>
      match s.virtual_hardware.serialports[inst.portIdx]? with
      | some sp =>
        match inst.write_request sp p2eff with
        | (some e, _, _) => .error e
        | (none, sp', resps) =>
          .ok ({ s with
                  virtual_hardware :=
                    ⟨s.virtual_hardware.serialports.set inst.portIdx sp'⟩ }, resps)
      | none => .error PyError.indexError
    | none => .error PyError.indexError
  else if f.cmd = PI_CMD_SERR then
    if f.p3 = 0 then
      let size := le32 f.p2
      match s.serial_instances[f.p1]? with
      | some inst =>
        match s.virtual_hardware.serialports[inst.portIdx]? with
        | some sp =>
          match inst.read_request sp size with
          | (some e, _, _) => .error e
          | (none, inst', resps) =>
            .ok ({ s with serial_instances := s.serial_instances.set f.p1 inst' }, resps)
        | none => .error PyError.indexError
      | none => .error PyError.indexError
    else .error PyError.structError
  else if f.cmd = PI_CMD_SERDA then
    match s.serial_instances[f.p1]? with
    | some inst =>
      match s.virtual_hardware.serialports[inst.portIdx]? with
      | some sp => .ok (s, inst.data_available_request sp)
      | none => .error PyError.indexError
    | none => .error PyError.indexError
  else
    .ok (s, [])

/-- The first component of `input_dat_avail`, as a bare conditional. -/
theorem input_dat_avail_fst (p : SerialPort) (r : Nat) :
    (p.input_dat_avail r).1 =
      if p.input_buffer_w_index > r then p.input_buffer_w_index - r
      else if p.input_buffer_w_index < r then
        p.input_buffer_size - r + p.input_buffer_w_index
      else 0 := by
  unfold SerialPort.input_dat_avail
  split
  · rfl
  · split <;> rfl

/-- The first component of `output_dat_avail`, as a bare conditional. -/
theorem output_dat_avail_fst (p : SerialPort) (r : Nat) :
    (p.output_dat_avail r).1 =
      if p.output_buffer_w_index > r then p.output_buffer_w_index - r
      else if p.output_buffer_w_index < r then
        p.output_buffer_size - r + p.output_buffer_w_index
      else 0 := by
  unfold SerialPort.output_dat_avail
  split
  · rfl
  · split <;> rfl

/-- The three-way conditional of the `dat_avail` methods computes
`(w - r) mod C` whenever both cursors lie in `[0, C)`. -/
theorem avail_formula (w r C : Nat) (h1 : r < C) (h2 : w < C) :
    (((if w > r then w - r else if w < r then C - r + w else 0 : Nat)) : Int)
      = ((w : Int) - (r : Int)) % (C : Int) := by
  rcases lt_trichotomy r w with h | h | h
  · rw [if_pos h, Int.emod_eq_of_lt (by omega) (by omega)]
    omega
  · subst h
    simp
  · rw [if_neg (by omega), if_pos h, ← Int.add_emod_self,
      Int.emod_eq_of_lt (by omega) (by omega)]
    omega

/-- C5: for every read cursor `r` in `[0, capacity)` (and write cursor
maintained modulo capacity, as both methods guarantee), `input_dat_avail r`
and `output_dat_avail r` return `(writeCursor - r) mod capacity`, and return
exactly `0` whenever `r` equals the write cursor — so an empty buffer and a
reader one full lap behind are indistinguishable. -/
theorem dat_avail_mod_formula (p : SerialPort) (r : Nat)
    (h1 : r < p.input_buffer_size) (h2 : p.input_buffer_w_index < p.input_buffer_size)
    (h3 : r < p.output_buffer_size) (h4 : p.output_buffer_w_index < p.output_buffer_size) :
    (((p.input_dat_avail r).1 : Int)
        = ((p.input_buffer_w_index : Int) - (r : Int)) % (p.input_buffer_size : Int)
      ∧ (r = p.input_buffer_w_index → (p.input_dat_avail r).1 = 0))
    ∧ (((p.output_dat_avail r).1 : Int)
        = ((p.output_buffer_w_index : Int) - (r : Int)) % (p.output_buffer_size : Int)
      ∧ (r = p.output_buffer_w_index → (p.output_dat_avail r).1 = 0)) := by
  refine ⟨⟨?_, ?_⟩, ?_, ?_⟩
  · rw [input_dat_avail_fst]
    exact avail_formula _ _ _ h1 h2
  · intro h
    rw [input_dat_avail_fst, h]
    simp
  · rw [output_dat_avail_fst]
    exact avail_formula _ _ _ h3 h4
  · intro h
    rw [output_dat_avail_fst, h]
    simp

/-- Witness for `dat_avail_mod_formula` at a concrete port (capacity 4, input
write cursor 1, output write cursor 3) and cursor `r = 2`. -/
theorem dat_avail_mod_formula_witness :
    ((((⟨[120], 9600, [65, 0, 0, 0], [66, 67, 68, 0], 4, 4, 1, 3⟩ :
          SerialPort).input_dat_avail 2).1 : Int) = ((1 : Int) - (2 : Int)) % (4 : Int))
    ∧ (((⟨[120], 9600, [65, 0, 0, 0], [66, 67, 68, 0], 4, 4, 1, 3⟩ :
          SerialPort).output_dat_avail 2).1 : Int) = ((3 : Int) - (2 : Int)) % (4 : Int) :=
  ⟨((dat_avail_mod_formula ⟨[120], 9600, [65, 0, 0, 0], [66, 67, 68, 0], 4, 4, 1, 3⟩ 2
      (by decide) (by decide) (by decide) (by decide)).1).1,
   ((dat_avail_mod_formula ⟨[120], 9600, [65, 0, 0, 0], [66, 67, 68, 0], 4, 4, 1, 3⟩ 2
      (by decide) (by decide) (by decide) (by decide)).2).1⟩

/-- C9: `get_input`, `get_output`, `input_dat_avail` and `output_dat_avail`
leave the port state (stored bytes and write cursors) unchanged, and
consequently repeated availability queries at the same cursor return the same
value. -/
theorem buffer_reads_pure (p : SerialPort) (size r : Nat) :
    (p.get_input size r).2 = p
    ∧ (p.get_output size r).2 = p
    ∧ (p.input_dat_avail r).2 = p
    ∧ (p.output_dat_avail r).2 = p
    ∧ ((p.input_dat_avail r).2.input_dat_avail r).1 = (p.input_dat_avail r).1
    ∧ ((p.output_dat_avail r).2.output_dat_avail r).1 = (p.output_dat_avail r).1 := by
  have hia : (p.input_dat_avail r).2 = p := by
    unfold SerialPort.input_dat_avail
    split
    · rfl
    · split <;> rfl
  have hoa : (p.output_dat_avail r).2 = p := by
    unfold SerialPort.output_dat_avail
    split
    · rfl
    · split <;> rfl
  refine ⟨?_, ?_, hia, hoa, ?_, ?_⟩
  · unfold SerialPort.get_input
    dsimp only
    split <;> rfl
  · unfold SerialPort.get_output
    dsimp only
    split <;> rfl
  · rw [hia]
  · rw [hoa]

/-- C3 fails on the code at the exact-boundary write: on a fresh port of
capacity 4 (both cursors 0), writing the four bytes `"abcd"` ends exactly at
the buffer boundary; the slice assignment `buf[0:0] = data` *inserts*, and the
follow-up `get_input(4, 0)` computes `goal_index = 0` and returns the empty
slice `buf[0:0]`, while `input_dat_avail(0)` sees `w == r` and reports `0` —
instead of the written bytes and `4` that the claim requires. -/
theorem roundtrip_boundary_failure :
    (((SerialPort.init [116] 9600 4 4).put_input [97, 98, 99, 100]).get_input 4 0).1.1 = []
    ∧ (((SerialPort.init [116] 9600 4 4).put_input [97, 98, 99, 100]).input_dat_avail 0).1 = 0
    ∧ (((SerialPort.init [116] 9600 4 4).put_input [97, 98, 99, 100]).get_input 4 0).1.1
        ≠ [97, 98, 99, 100]
    ∧ (((SerialPort.init [116] 9600 4 4).put_input [97, 98, 99, 100]).input_dat_avail 0).1
        ≠ [97, 98, 99, 100].length := by
  decide

/-- C4 fails on the code at the exact-boundary write: writing 4 bytes to a
fresh capacity-4 port reaches the `else` branch with `goal_index = 0`, and
`buf[w:0] = data` inserts rather than replaces, leaving the backing list with
8 elements (capacity + len(data)); the write cursor itself is still advanced
to `(0 + 4) mod 4 = 0` as the claim states. -/
theorem put_input_boundary_grows_storage :
    (((SerialPort.init [117] 9600 4 4).put_input [97, 98, 99, 100]).input_buffer).length = 8
    ∧ ((SerialPort.init [117] 9600 4 4).put_input [97, 98, 99, 100]).input_buffer_w_index = 0
    ∧ (((SerialPort.init [117] 9600 4 4).put_input [97, 98, 99, 100]).input_buffer).length
        ≠ ((SerialPort.init [117] 9600 4 4).put_input [97, 98, 99, 100]).input_buffer_size := by
  decide

/-- C6 as stated is false: on a fresh capacity-4 port nothing has been
written, so `input_dat_avail 0` is `0`, yet `get_input 2 0` returns the two
initial storage bytes — more than is available, bytes never written since the
cursor's position. -/
theorem get_input_no_clamp_counterexample :
    ((SerialPort.init [118] 9600 4 4).get_input 2 0).1.1 = [0, 0]
    ∧ ((SerialPort.init [118] 9600 4 4).input_dat_avail 0).1 = 0
    ∧ ¬(((SerialPort.init [118] 9600 4 4).get_input 2 0).1.1.length
          ≤ ((SerialPort.init [118] 9600 4 4).input_dat_avail 0).1) := by
  decide

/-- C6 amended: `get_input` performs no clamping at all — for any cursor and
requested size with `r + size < capacity` it returns exactly `size` bytes of
raw storage, regardless of how many are available, together with the advanced
cursor `(r + size) mod capacity`; clamping to availability is done by the
session's `read_request` before calling (see `read_request_clamps`). -/
theorem get_input_unclamped_length (p : SerialPort) (size r : Nat)
    (hlen : p.input_buffer.length = p.input_buffer_size)
    (hlt : r + size < p.input_buffer_size) :
    ((p.get_input size r).1.1).length = size
    ∧ (p.get_input size r).1.2 = (r + size) % p.input_buffer_size := by
  unfold SerialPort.get_input
  rw [if_neg (by omega)]
  refine ⟨?_, rfl⟩
  simp only [List.length_drop, List.length_take, hlen, Nat.mod_eq_of_lt hlt]
  omega

/-- Witness for `get_input_unclamped_length` on a fresh capacity-4 port with
`size = 2`, `r = 0`. -/
theorem get_input_unclamped_length_witness :
    (((SerialPort.init [118] 9600 4 4).get_input 2 0).1.1).length = 2
    ∧ ((SerialPort.init [118] 9600 4 4).get_input 2 0).1.2 = (0 + 2) % 4 :=
  get_input_unclamped_length (SerialPort.init [118] 9600 4 4) 2 0 (by decide) (by decide)

/-- `get_input` always returns `goal_index = (read_index + size) mod capacity`
as the new cursor, in both branches. -/
theorem get_input_snd_cursor (p : SerialPort) (size r : Nat) :
    (p.get_input size r).1.2 = (r + size) % p.input_buffer_size := by
  unfold SerialPort.get_input
  dsimp only
  split <;> rfl

/-- Length of the bytes `get_input` returns, for `r ≤ capacity` and
`r + size < 2 * capacity`: exactly `size`, except that a read ending exactly
at the buffer boundary (`r + size = capacity`) returns the empty slice
`buf[r:0]`. -/
theorem get_input_len (p : SerialPort) (size r : Nat)
    (hlen : p.input_buffer.length = p.input_buffer_size)
    (hr : r ≤ p.input_buffer_size) (h2 : r + size < 2 * p.input_buffer_size) :
    ((p.get_input size r).1.1).length
      = if r + size = p.input_buffer_size then 0 else size := by
  unfold SerialPort.get_input
  dsimp only
  by_cases hgt : r + size > p.input_buffer_size
  · rw [if_pos hgt, if_neg (by omega)]
    have hg : (r + size) % p.input_buffer_size = r + size - p.input_buffer_size := by
      rw [Nat.mod_eq_sub_mod (by omega), Nat.mod_eq_of_lt (by omega)]
    simp only [List.length_append, List.length_drop, List.length_take, hlen, hg]
    omega
  · rw [if_neg hgt]
    by_cases heq : r + size = p.input_buffer_size
    · rw [if_pos heq]
      have hg : (r + size) % p.input_buffer_size = 0 := by
        rw [heq, Nat.mod_self]
      simp only [List.length_drop, List.length_take, hg]
      omega
    · rw [if_neg heq]
      have hg : (r + size) % p.input_buffer_size = r + size :=
        Nat.mod_eq_of_lt (by omega)
      simp only [List.length_drop, List.length_take, hlen, hg]
      omega

/-- `input_dat_avail` is below the capacity whenever both cursors are. -/
theorem input_dat_avail_lt (p : SerialPort) (r : Nat)
    (hr : r < p.input_buffer_size) (hw : p.input_buffer_w_index < p.input_buffer_size) :
    (p.input_dat_avail r).1 < p.input_buffer_size := by
  rw [input_dat_avail_fst]
  split
  · omega
  · split <;> omega

/-- C7 as stated is false when the clamped bytes do not decode as UTF-8: here
the port's input buffer holds the single available byte `0xFF` at the
binding's cursor, a `SERR` for 2 bytes clamps to 1, but the logging call
`to_send.decode('utf-8')` raises `UnicodeDecodeError` after the cursor was
advanced and before either send, so no `{0,0,0,actualLen}` header and no raw
bytes are ever sent. -/
theorem read_request_utf8_counterexample :
    PigpioSerialInstance.read_request ⟨0, 0, 0, 0⟩
        ⟨[120], 9600, [255, 0, 0, 0], [0, 0, 0, 0], 4, 4, 1, 0⟩ 2
      = (some PyError.unicodeDecodeError, ⟨0, 0, 1, 0⟩, [])
    ∧ ((⟨[120], 9600, [255, 0, 0, 0], [0, 0, 0, 0], 4, 4, 1, 0⟩ :
          SerialPort).input_dat_avail 0).1 < 2 := by
  decide

/-- C7 amended: for a `SERR` whose requested size exceeds the bytes available
at the binding's cursor, `read_request` clamps the request to the available
count, advances the binding's input read cursor to
`(cursor + available) mod capacity`, and — provided the bytes read decode as
UTF-8 (otherwise the logging step raises and nothing is sent, see
`read_request_utf8_counterexample`) — sends the header `{0,0,0,actualLen}`
with `actualLen` equal to the number of raw bytes actually sent, followed by
exactly those bytes; `actualLen` is at most the available count (it falls
short of it only in the degenerate `cursor + available = capacity` slice). -/
theorem read_request_clamps (p : SerialPort) (inst : PigpioSerialInstance) (size : Nat)
    (hlen : p.input_buffer.length = p.input_buffer_size)
    (hr : inst.input_buffer_r_index < p.input_buffer_size)
    (hw : p.input_buffer_w_index < p.input_buffer_size)
    (hsz : (p.input_dat_avail inst.input_buffer_r_index).1 < size)
    (hu : validUtf8 ((p.get_input (p.input_dat_avail inst.input_buffer_r_index).1
        inst.input_buffer_r_index).1.1) = true) :
    inst.read_request p size =
      (none,
       { inst with input_buffer_r_index :=
           (inst.input_buffer_r_index + (p.input_dat_avail inst.input_buffer_r_index).1)
             % p.input_buffer_size },
       [Resp.frame 0 0 0
          ((((p.get_input (p.input_dat_avail inst.input_buffer_r_index).1
              inst.input_buffer_r_index).1.1).length : Nat) : Int),
        Resp.raw ((p.get_input (p.input_dat_avail inst.input_buffer_r_index).1
            inst.input_buffer_r_index).1.1)])
    ∧ ((p.get_input (p.input_dat_avail inst.input_buffer_r_index).1
          inst.input_buffer_r_index).1.1).length
        ≤ (p.input_dat_avail inst.input_buffer_r_index).1 := by
  constructor
  · unfold PigpioSerialInstance.read_request
    dsimp only
    rw [if_pos hsz, if_pos hu, get_input_snd_cursor]
  · rw [get_input_len p _ _ hlen (by omega)
      (by have := input_dat_avail_lt p inst.input_buffer_r_index hr hw; omega)]
    split <;> omega

/-- Witness for `read_request_clamps`: capacity-4 port holding `"ab"`
(write cursor 2), binding cursor 0, request of 5 bytes — clamped to the 2
available, answered with `{0,0,0,2}` and the bytes `"ab"`. -/
theorem read_request_clamps_witness :
    PigpioSerialInstance.read_request ⟨0, 0, 0, 0⟩
        ⟨[120], 9600, [97, 98, 0, 0], [0, 0, 0, 0], 4, 4, 2, 0⟩ 5
      = (none, ⟨0, 0, 2, 0⟩, [Resp.frame 0 0 0 2, Resp.raw [97, 98]])
    ∧ (((⟨[120], 9600, [97, 98, 0, 0], [0, 0, 0, 0], 4, 4, 2, 0⟩ :
          SerialPort).get_input 2 0).1.1).length ≤ 2 := by
  have h := read_request_clamps ⟨[120], 9600, [97, 98, 0, 0], [0, 0, 0, 0], 4, 4, 2, 0⟩
    ⟨0, 0, 0, 0⟩ 5 (by decide) (by decide) (by decide) (by decide) (by decide)
  exact h

/-- C10: whenever the `SERW` payload (the bytes after the 4-byte prefix
consumed by `struct.unpack`) is not valid UTF-8, `write_request` raises
`UnicodeDecodeError` after writing the payload to the port's output buffer but
before sending, so no `{0,0,0,handle}` frame is produced; and whenever the
bytes a `SERR` reads are not valid UTF-8, `read_request` raises
`UnicodeDecodeError` before sending, so neither the `{0,0,0,actualLen}` header
nor the raw bytes are produced. -/
theorem utf8_decode_blocks_response (p q : SerialPort) (inst jnst : PigpioSerialInstance)
    (data : List Nat) (size : Nat)
    (h1 : 4 ≤ data.length)
    (h2 : validUtf8 (data.drop 4) = false)
    (h3 : validUtf8 ((q.get_input
        (if size > (q.input_dat_avail jnst.input_buffer_r_index).1
         then (q.input_dat_avail jnst.input_buffer_r_index).1 else size)
        jnst.input_buffer_r_index).1.1) = false) :
    inst.write_request p data
      = (some PyError.unicodeDecodeError, p.put_output (data.drop 4), [])
    ∧ jnst.read_request q size
      = (some PyError.unicodeDecodeError,
         { jnst with input_buffer_r_index :=
             (q.get_input
               (if size > (q.input_dat_avail jnst.input_buffer_r_index).1
                then (q.input_dat_avail jnst.input_buffer_r_index).1 else size)
               jnst.input_buffer_r_index).1.2 },
         []) := by
  constructor
  · unfold PigpioSerialInstance.write_request
    rw [if_neg (by omega), if_neg (by simp [h2])]
  · unfold PigpioSerialInstance.read_request
    dsimp only
    rw [if_neg (by simp [h3])]

/-- Witness for `utf8_decode_blocks_response`: a `SERW` payload ending in the
lone byte `0xFF` and a `SERR` that reads the single available byte `0xFF`. -/
theorem utf8_decode_blocks_response_witness :
    PigpioSerialInstance.write_request ⟨0, 0, 0, 0⟩ (SerialPort.init [120] 9600 4 4)
        [1, 0, 0, 0, 255]
      = (some PyError.unicodeDecodeError,
         (SerialPort.init [120] 9600 4 4).put_output [255], [])
    ∧ PigpioSerialInstance.read_request ⟨0, 0, 0, 0⟩
        ⟨[121], 9600, [255, 0, 0, 0], [0, 0, 0, 0], 4, 4, 1, 0⟩ 1
      = (some PyError.unicodeDecodeError, ⟨0, 0, 1, 0⟩, []) := by
  have h := utf8_decode_blocks_response (SerialPort.init [120] 9600 4 4)
    ⟨[121], 9600, [255, 0, 0, 0], [0, 0, 0, 0], 4, 4, 1, 0⟩ ⟨0, 0, 0, 0⟩ ⟨0, 0, 0, 0⟩
    [1, 0, 0, 0, 255] 1 (by decide) (by decide) (by decide)
  exact h

/-- The registry entry and session used by the C1 scenario: one virtual port
named `"/dev/ttyAMA0"` (ASCII bytes) at bit rate 115200, capacity 4, and a
fresh session. -/
def sero_cx_port : SerialPort :=
  SerialPort.init [47, 100, 101, 118, 47, 116, 116, 121, 65, 77, 65, 48] 115200 4 4

def sero_cx_session : Session := ⟨⟨[sero_cx_port]⟩, [], none⟩

/-- A `SERO` frame as the real pigpio client sends it: `p1` the bit rate, the
4-byte `p2` field numeric (serial flags, zero), and the port name carried
entirely in the `p3`-byte extension. -/
def sero_cx_frame : Frame :=
  ⟨76, 115200, [0, 0, 0, 0], 12, [47, 100, 101, 118, 47, 116, 116, 121, 65, 77, 65, 48]⟩

/-- C1 as stated is false: the lookup key is *not* the concatenation of the
4-byte `p2` field with the extension.  Against the registry
`[/dev/ttyAMA0 @ 115200]`, a frame whose `p2` is the numeric zero field and
whose extension is `"/dev/ttyAMA0"` matches *no* port under the claim's key
`p2 ++ ext` (first conjunct), so the claim requires `{0,0,0,-1}` and no
binding — yet the code, which compares only the decoded extension `ext`
against `serialport.port`, appends a binding and answers `{0,0,0,0}`
(second conjunct). -/
theorem sero_name_counterexample :
    (∀ q ∈ sero_cx_session.virtual_hardware.serialports,
        ¬(q.port = sero_cx_frame.p2 ++ sero_cx_frame.ext ∧ q.baudrate = sero_cx_frame.p1))
    ∧ processFrame sero_cx_session sero_cx_frame =
        .ok (⟨⟨[sero_cx_port]⟩, [⟨0, 0, 0, 0⟩], some sero_cx_frame.ext⟩,
             [Resp.frame 0 0 0 0]) := by
  decide

/-- C1 amended: `SERO` matches the `p3`-byte extension alone (decoded as
ASCII) against the registered port name, together with `baudrate == p1`; on
the first match it appends a binding whose handle is the previous list length
(its index), binds the cursors from the port's write cursors, and answers
`{0,0,0,handle}`; with no match it answers `{0,0,0,-1}` and appends nothing. -/
theorem sero_open_matches_extension (s : Session) (f : Frame) (i : Nat) (sp : SerialPort)
    (hc : f.cmd = 76) (hp3 : f.p3 ≠ 0)
    (ha : f.ext.all (fun b => b < 128) = true) :
    (s.virtual_hardware.serialports.findIdx?
        (fun q => q.port == f.ext && q.baudrate == f.p1) = some i →
      s.virtual_hardware.serialports[i]? = some sp →
      processFrame s f =
        .ok ({ s with
                lastExt := some f.ext
                serial_instances := s.serial_instances ++
                  [{ portIdx := i
                     handle_id := s.serial_instances.length
                     input_buffer_r_index := sp.input_buffer_w_index
                     output_buffer_r_index := sp.output_buffer_w_index }] },
             [Resp.frame 0 0 0 (s.serial_instances.length : Int)]))
    ∧ (s.virtual_hardware.serialports.findIdx?
        (fun q => q.port == f.ext && q.baudrate == f.p1) = none →
      processFrame s f =
        .ok ({ s with lastExt := some f.ext }, [Resp.frame 0 0 0 (-1)])) := by
  constructor
  · intro hfind hsp
    simp [processFrame, hc, hp3, ha, hfind, hsp, PI_CMD_SERO,
      PigpioSerialInstance.open_req, SerialPort.bind]
  · intro hfind
    simp [processFrame, hc, hp3, ha, hfind, PI_CMD_SERO]

/-- Witness for `sero_open_matches_extension` on the concrete registry and
frame of the C1 scenario (match case: handle 0). -/
theorem sero_open_matches_extension_witness :
    processFrame sero_cx_session sero_cx_frame =
      .ok ({ sero_cx_session with
              lastExt := some sero_cx_frame.ext
              serial_instances := [{ portIdx := 0
                                     handle_id := 0
                                     input_buffer_r_index := 0
                                     output_buffer_r_index := 0 }] },
           [Resp.frame 0 0 0 0]) := by
  have h := (sero_open_matches_extension sero_cx_session sero_cx_frame 0 sero_cx_port
    rfl (by decide) (by decide)).1 (by decide) (by decide)
  simpa using h

/-- C2 as stated is false: on a fresh session (no bindings) a `SERC` frame
with handle `p1 = 0` reaches `self.serial_instances[0]` and raises an
uncaught `IndexError` (the loop's `except` clause catches only
`socket.timeout`), aborting the control loop instead of answering or merely
logging. -/
theorem serc_bad_handle_uncaught :
    processFrame ⟨⟨[sero_cx_port]⟩, [], none⟩ ⟨77, 0, [0, 0, 0, 0], 0, []⟩
      = .error PyError.indexError := by
  decide

/-- C2 amended: a frame whose command number is outside the implemented set
{SERO, SERC, SERR, SERW, SERDA} — including SERRB (78) and SERWB (79) — is
only logged: no exception, no response, state unchanged (except the `ext`
local).  But a SERC, SERW or SERDA frame whose `p1` is not the index of an
existing binding, or a SERR frame with `p3 = 0` and such a `p1`, raises an
uncaught `IndexError` that terminates the session's control loop. -/
theorem frame_dispatch_error_behavior (s : Session) (f : Frame) :
    ((f.cmd ≠ 76 ∧ f.cmd ≠ 77 ∧ f.cmd ≠ 80 ∧ f.cmd ≠ 81 ∧ f.cmd ≠ 82) →
      processFrame s f =
        .ok ({ s with lastExt := if f.p3 ≠ 0 then some f.ext else s.lastExt }, []))
    ∧ (s.serial_instances.length ≤ f.p1 →
      (f.cmd = 77 ∨ f.cmd = 81 ∨ f.cmd = 82 ∨ (f.cmd = 80 ∧ f.p3 = 0)) →
      processFrame s f = .error PyError.indexError) := by
  constructor
  · rintro ⟨h1, h2, h3, h4, h5⟩
    simp [processFrame, PI_CMD_SERO, PI_CMD_SERC, PI_CMD_SERR, PI_CMD_SERW, PI_CMD_SERDA,
      h1, h2, h3, h4, h5]
  · intro hlen hc
    have hnone : s.serial_instances[f.p1]? = none := List.getElem?_eq_none hlen
    rcases hc with h | h | h | ⟨h, hp⟩ <;>
      simp [processFrame, PI_CMD_SERO, PI_CMD_SERC, PI_CMD_SERR, PI_CMD_SERW, PI_CMD_SERDA,
        h, hnone, *]

/-- Witness for `frame_dispatch_error_behavior`: the no-exception conjunct at
the unimplemented `SERRB` command (78) on a concrete session, via the first
conjunct of the theorem. -/
theorem frame_dispatch_error_behavior_witness :
    processFrame ⟨⟨[sero_cx_port]⟩, [], none⟩ ⟨78, 0, [0, 0, 0, 0], 0, []⟩
      = .ok (⟨⟨[sero_cx_port]⟩, [], none⟩, []) := by
  have h := (frame_dispatch_error_behavior ⟨⟨[sero_cx_port]⟩, [], none⟩
    ⟨78, 0, [0, 0, 0, 0], 0, []⟩).1 (by decide)
  simpa using h

/-- C8 as stated is false: `SERC` only calls `close()` on the binding, which
sends `{0,0,0,handle}` and logs — nothing ever removes the entry from
`serial_instances`.  Here a session with one binding processes `SERC(p1=0)`;
the response is sent but the session state is unchanged: handle 0 still
addresses the binding afterwards. -/
theorem serc_no_removal_counterexample :
    processFrame ⟨⟨[sero_cx_port]⟩, [⟨0, 0, 0, 0⟩], none⟩ ⟨77, 0, [0, 0, 0, 0], 0, []⟩
      = .ok (⟨⟨[sero_cx_port]⟩, [⟨0, 0, 0, 0⟩], none⟩, [Resp.frame 0 0 0 0])
    ∧ (⟨⟨[sero_cx_port]⟩, [⟨0, 0, 0, 0⟩], none⟩ : Session).serial_instances.length = 1 := by
  decide

/-- C8 amended: for a `SERC` whose `p1` is the index of an existing binding,
the session sends `{0,0,0,handle_id}` of that binding but does *not* remove
it — `serial_instances` is unchanged, so the handle still addresses the same
binding afterwards. -/
theorem serc_close_keeps_binding (s : Session) (f : Frame)
    (hc : f.cmd = 77) (h : f.p1 < s.serial_instances.length) :
    processFrame s f =
      .ok ({ s with lastExt := if f.p3 ≠ 0 then some f.ext else s.lastExt },
           [Resp.frame 0 0 0 ((s.serial_instances.get ⟨f.p1, h⟩).handle_id : Int)]) := by
  have hg : s.serial_instances[f.p1]? = some (s.serial_instances.get ⟨f.p1, h⟩) := by
    simp [List.getElem?_eq_getElem h]
  simp [processFrame, PI_CMD_SERO, PI_CMD_SERC, hc, hg, PigpioSerialInstance.close]

/-- Witness for `serc_close_keeps_binding`: a session holding one binding with
handle 0 answers `SERC(p1=0)` with `{0,0,0,0}` and keeps the binding. -/
theorem serc_close_keeps_binding_witness :
    processFrame ⟨⟨[sero_cx_port]⟩, [⟨0, 0, 7, 0⟩], none⟩ ⟨77, 0, [0, 0, 0, 0], 0, []⟩
      = .ok (⟨⟨[sero_cx_port]⟩, [⟨0, 0, 7, 0⟩], none⟩, [Resp.frame 0 0 0 0]) := by
  have h := serc_close_keeps_binding ⟨⟨[sero_cx_port]⟩, [⟨0, 0, 7, 0⟩], none⟩
    ⟨77, 0, [0, 0, 0, 0], 0, []⟩ rfl (by decide)
  simpa using h
